import Mathlib

/-
Shallow embedding of the libuEv micro event loop core (ESP/FreeRTOS port):
the watcher data model, the timer and event operations, the per-watcher
dispatch step of uev_run, the entry re-arm pass of uev_run, and the
readiness computation of the I/O selector task.

Machine integers: millisecond times and deadlines are C uint64_t, modelled
as Nat with an explicit reduction mod 2^64 at the one place the code adds
into a uint64_t.  The timeout and period arguments are C int, modelled as
Int so the negativity checks are faithful.  Pointer nullness of a watcher
is modelled with Option, nullness of the owning context with the hasCtx
flag, and membership in the intrusive doubly linked lists with the linked
and inIolist flags.
-/

namespace Uev

/-- Event bits delivered to callbacks, from uev.h. -/
def UEV_NONE : Nat := 0

def UEV_ERROR : Nat := 1

def UEV_READ : Nat := 2

def UEV_WRITE : Nat := 4

/-- Run flags, from uev.h. -/
def UEV_ONCE : Nat := 1

def UEV_NONBLOCK : Nat := 2

/-- UEV_EVENT_MASK from private.h: ERROR, READ and WRITE. -/
def UEV_EVENT_MASK : Nat := UEV_ERROR ||| UEV_READ ||| UEV_WRITE

/-- Event group bits, from private.h. -/
def UEV_EG_BIT_IO : Nat := 1

def UEV_EG_BIT_EVENT : Nat := 2

def UEV_EG_BIT_TIMER : Nat := 4

/-- The 2^64 modulus of C uint64_t arithmetic. -/
def U64_MOD : Nat := 2 ^ 64

/-- The sentinel 0xffffffffffffffff used for next_deadline in uev_run. -/
def UEV_FOREVER : Nat := 0xffffffffffffffff

/-- Addition of a C int into a C uint64_t, reduced mod 2^64. -/
def addU64 (a : Nat) (b : Int) : Nat := (((a : Int) + b) % (U64_MOD : Int)).toNat

/-- Watcher discriminator uev_type_t from private.h. -/
inductive UevType where
  | io
  | timer
  | timerTs
  | event
deriving DecidableEq, Repr

/-- POSIX errno values the core sets. -/
inductive Err where
  | EINVAL
  | ERANGE
deriving DecidableEq, Repr

/-- The timer payload of the uev_t union: timeout and period are C int,
deadline is a uint64_t absolute millisecond time. -/
structure TimerData where
  timeout : Int
  period : Int
  deadline : Nat
deriving DecidableEq, Repr

/-- One watcher (uev_t).  hasCtx models w.ctx being non-null, hasCb models
w.cb being non-null, linked models membership in the ctx watchers list,
inIolist models membership in the private iothread list, posted is the
atomic posted flag of event watchers and ioEvents the atomic pending
events word of I/O watchers. -/
structure Watcher where
  type : UevType
  hasCtx : Bool
  active : Bool
  fd : Int
  hasCb : Bool
  events : Nat
  timer : TimerData
  posted : Bool
  ioEvents : Nat
  linked : Bool
  inIolist : Bool
deriving DecidableEq, Repr

/-- The loop context (uev_ctx_t): the atomic running flag and the bits
currently set in the FreeRTOS event group. -/
structure Ctx where
  running : Bool
  egbits : Nat
deriving DecidableEq, Repr

/-- Model of _uev_set_flags: sets bits in the context event group.  The ISR and the
task path both end up setting the same bits. -/
def _uev_set_flags (ctx : Ctx) (bits : Nat) : Ctx :=
  { ctx with egbits := ctx.egbits ||| bits }

/-- Model of _uev_watcher_active: a null watcher is inactive, otherwise the active
flag decides. -/
def _uev_watcher_active (w : Option Watcher) : Bool :=
  match w with
  | none => false
  | some w => w.active

/-- Model of the _uev_watcher_init body (null checks of ctx and w precede in C and are
handled by the callers in this model): fills the common fields, zeroes the
pending events word, and inserts threadsafe timers into the context list
immediately. -/
def _uev_watcher_init (w : Watcher) (type : UevType) (hasCb : Bool) (fd : Int)
    (events : Nat) : Watcher :=
  let w := { w with
    hasCtx := true, type := type, active := false, fd := fd,
    hasCb := hasCb, events := events, ioEvents := 0 }
  if w.type = UevType.timerTs then { w with linked := true } else w

/-- Model of _uev_watcher_start: EINVAL without a context or for an I/O watcher with
a negative descriptor; no-op when already active; otherwise sets active,
adds I/O watchers to the iothread list, and links every variant except the
threadsafe timer into the context list. -/
def _uev_watcher_start (w : Watcher) : Except Err Unit × Watcher :=
  if ¬ w.hasCtx then (Except.error Err.EINVAL, w)
  else if w.type = UevType.io ∧ w.fd < 0 then (Except.error Err.EINVAL, w)
  else if w.active then (Except.ok (), w)
  else
    let w := { w with active := true }
    let w := if w.type = UevType.io then { w with inIolist := true } else w
    let w := if w.type ≠ UevType.timerTs then { w with linked := true } else w
    (Except.ok (), w)

/-- Model of the _uev_watcher_stop body for a non-null watcher: no-op when not active;
otherwise clears active, removes I/O watchers from the iothread list, and
unlinks every variant except the threadsafe timer from the context list. -/
def _uev_watcher_stop (w : Watcher) : Except Err Unit × Watcher :=
  if ¬ w.active then (Except.ok (), w)
  else
    let w := { w with active := false }
    let w := if w.type = UevType.io then { w with inIolist := false } else w
    let w := if w.type ≠ UevType.timerTs then { w with linked := false } else w
    (Except.ok (), w)

/-- Model of _uev_timer_stop, the internal timer stop: returns 0 without change when
the watcher is not active, otherwise forwards to _uev_watcher_stop. -/
def _uev_timer_stop (w : Watcher) : Except Err Unit × Watcher :=
  if ¬ _uev_watcher_active (some w) then (Except.ok (), w)
  else _uev_watcher_stop w

/-- uev_timer_stop, the public timer stop: the internal stop followed by an
unconditional _UEV_REMOVE from the context watchers list. -/
def uev_timer_stop (w : Watcher) : Except Err Unit × Watcher :=
  match _uev_timer_stop w with
  | (Except.error e, w) => (Except.error e, w)
  | (Except.ok _, w) => (Except.ok (), { w with linked := false })

/-- uev_timer_set on a non-null watcher: EINVAL without an owning context,
ERANGE on a negative timeout or period; then stores timeout and period,
computes the deadline as now_us/1000 + timeout when the loop runs and the
timeout is non-zero and zero otherwise, sets the TIMER bit in the event
group, and finally starts the watcher. -/
def uev_timer_set (now_us : Nat) (w : Watcher) (ctx : Ctx) (timeout period : Int) :
    Except Err Unit × Watcher × Ctx :=
  if ¬ w.hasCtx then (Except.error Err.EINVAL, w, ctx)
  else if timeout < 0 ∨ period < 0 then (Except.error Err.ERANGE, w, ctx)
  else
    let w := { w with timer.timeout := timeout, timer.period := period }
    let w :=
      if ctx.running ∧ w.timer.timeout ≠ (0 : Int)
      then { w with timer.deadline := addU64 (now_us / 1000) timeout }
      else { w with timer.deadline := 0 }
    let ctx := _uev_set_flags ctx UEV_EG_BIT_TIMER
    match _uev_watcher_start w with
    | (rc, w) => (rc, w, ctx)

/-- uev_timer_set including the null watcher check. -/
def uev_timer_setFull (now_us : Nat) (w : Option Watcher) (ctx : Ctx)
    (timeout period : Int) : Except Err Unit × Option Watcher × Ctx :=
  match w with
  | none => (Except.error Err.EINVAL, none, ctx)
  | some w =>
    match uev_timer_set now_us w ctx timeout period with
    | (rc, w, c) => (rc, some w, c)

/-- uev_timer_start on a non-null watcher: stops the watcher first when its
descriptor is not -1, then re-applies uev_timer_set with the stored timeout
and period. -/
def uev_timer_start (now_us : Nat) (w : Watcher) (ctx : Ctx) :
    Except Err Unit × Watcher × Ctx :=
  let w := if w.fd ≠ -1 then (_uev_watcher_stop w).2 else w
  uev_timer_set now_us w ctx w.timer.timeout w.timer.period

/-- uev_timer_init2 on non-null ctx and watcher: ERANGE on negative
arguments, then _uev_watcher_init with fd -1 and events READ, then
uev_timer_set; a failing set stops the watcher again. -/
def uev_timer_init2 (now_us : Nat) (w : Watcher) (ctx : Ctx) (hasCb : Bool)
    (timeout period : Int) (threadsafe : Bool) : Except Err Unit × Watcher × Ctx :=
  if timeout < 0 ∨ period < 0 then (Except.error Err.ERANGE, w, ctx)
  else
    let w := _uev_watcher_init w
      (if threadsafe then UevType.timerTs else UevType.timer) hasCb (-1) UEV_READ
    match uev_timer_set now_us w ctx timeout period with
    | (Except.ok _, w, c) => (Except.ok (), w, c)
    | (Except.error e, w, c) => (Except.error e, (_uev_watcher_stop w).2, c)

/-- uev_timer_init forwards to uev_timer_init2 with threadsafe 0. -/
def uev_timer_init (now_us : Nat) (w : Watcher) (ctx : Ctx) (hasCb : Bool)
    (timeout period : Int) : Except Err Unit × Watcher × Ctx :=
  uev_timer_init2 now_us w ctx hasCb timeout period false

/-- uev_event_post on a non-null watcher: stores 1 into the atomic posted
flag and sets the EVENT bit in the context event group. -/
def uev_event_post (w : Watcher) (ctx : Ctx) : Except Err Unit × Watcher × Ctx :=
  (Except.ok (), { w with posted := true }, _uev_set_flags ctx UEV_EG_BIT_EVENT)

/-- n successive uev_event_post calls on the same watcher before a dispatch
iteration. -/
def postN : Nat → Watcher × Ctx → Watcher × Ctx
  | 0, s => s
  | n + 1, (w, c) =>
    match uev_event_post w c with
    | (_, w, c) => postN n (w, c)

/-- uev_event_stop: returns 0 without change when _uev_watcher_active is
false (which covers a null watcher), otherwise forwards to
_uev_watcher_stop. -/
def uev_event_stop (w : Option Watcher) : Except Err Unit × Option Watcher :=
  if ¬ _uev_watcher_active w then (Except.ok (), w)
  else
    match w with
    | none => (Except.ok (), none)
    | some w =>
      match _uev_watcher_stop w with
      | (rc, w) => (rc, some w)

/-- Result of handling one watcher inside the dispatch sweep of uev_run:
the updated watcher, the events value passed to the callback when one was
invoked, and the updated next_deadline. -/
structure HandleOut where
  w : Watcher
  delivered : Option Nat
  nd : Nat
deriving DecidableEq, Repr

/-- One watcher handled by the dispatch sweep of uev_run: skips inactive
watchers; event watchers fire on the EVENT bit when the posted flag
exchanges from 1 to 0; timer watchers (both variants) fire when now_ms is
positive, the deadline is non-zero and now_ms exceeds it, then zero the
timeout when the period is zero, stop via the internal _uev_timer_stop when
the timeout is zero and advance the deadline by the period otherwise, and
in all cases fold a non-zero deadline into next_deadline; I/O watchers fire
on the IO bit when the pending events word is non-zero, delivering it
masked by UEV_EVENT_MASK and then clearing the delivered bits. -/
def sweepOne (bits now_ms : Nat) (w : Watcher) (nd : Nat) : HandleOut :=
  if ¬ w.active then ⟨w, none, nd⟩
  else
    match w.type with
    | UevType.event =>
      if bits &&& UEV_EG_BIT_EVENT = 0 then ⟨w, none, nd⟩
      else if w.posted then
        ⟨{ w with posted := false },
         if w.hasCb then some (UEV_READ &&& UEV_EVENT_MASK) else none, nd⟩
      else ⟨w, none, nd⟩
    | UevType.timer | UevType.timerTs =>
      if 0 < now_ms ∧ w.timer.deadline ≠ 0 ∧ w.timer.deadline < now_ms then
        let w := if w.timer.period = 0 then { w with timer.timeout := 0 } else w
        let w :=
          if w.timer.timeout = 0 then (_uev_timer_stop w).2
          else { w with timer.deadline := addU64 now_ms w.timer.period }
        let nd :=
          if w.timer.deadline ≠ 0 ∧ w.timer.deadline < nd then w.timer.deadline else nd
        ⟨w, if w.hasCb then some (UEV_READ &&& UEV_EVENT_MASK) else none, nd⟩
      else
        let nd :=
          if w.timer.deadline ≠ 0 ∧ w.timer.deadline < nd then w.timer.deadline else nd
        ⟨w, none, nd⟩
    | UevType.io =>
      if bits &&& UEV_EG_BIT_IO = 0 then ⟨w, none, nd⟩
      else
        let ioevents := w.ioEvents
        if ioevents ≠ 0 then
          if w.hasCb then
            ⟨{ w with ioEvents := Nat.ldiff w.ioEvents ioevents },
             some (ioevents &&& UEV_EVENT_MASK), nd⟩
          else ⟨w, none, nd⟩
        else ⟨w, none, nd⟩

/-- One watcher of the entry re-arm pass of uev_run: for a timer of either
variant the code re-applies uev_timer_set with the stored timeout and
period (return value discarded) and then folds the deadline into
next_deadline without a zero guard. -/
def rearmOne (now_us : Nat) (w : Watcher) (ctx : Ctx) (nd : Nat) :
    Watcher × Ctx × Nat :=
  if w.type = UevType.timer ∨ w.type = UevType.timerTs then
    match uev_timer_set now_us w ctx w.timer.timeout w.timer.period with
    | (_, w, c) =>
      (w, c, if w.timer.deadline < nd then w.timer.deadline else nd)
  else (w, ctx, nd)

/-- The entry re-arm pass of uev_run over the registry. -/
def rearmPass (now_us : Nat) (ws : List Watcher) (ctx : Ctx) (nd : Nat) :
    List Watcher × Ctx × Nat :=
  match ws with
  | [] => ([], ctx, nd)
  | w :: rest =>
    match rearmOne now_us w ctx nd with
    | (w, c, nd) =>
      match rearmPass now_us rest c nd with
      | (ws, c, nd) => (w :: ws, c, nd)

/-- The entry of uev_run up to the first wait: seed next_deadline from the
flags, store running := 1, and run the re-arm pass over the registry. -/
def uev_run_entry (now_us : Nat) (flags : Nat) (ws : List Watcher) (ctx : Ctx) :
    List Watcher × Ctx × Nat :=
  let nd := if flags &&& UEV_NONBLOCK ≠ 0 then 0 else UEV_FOREVER
  rearmPass now_us ws { ctx with running := true } nd

/-- The readiness bits the selector task task_fn ORs into the pending
events word of one watcher after select returns: each of READ, WRITE and
ERROR only when the corresponding fd set holds the descriptor and the
requested mask holds the bit. -/
def selectorEvents (readReady writeReady exceptReady : Bool) (reqMask : Nat) : Nat :=
  (if readReady = true ∧ reqMask &&& UEV_READ ≠ 0 then UEV_READ else 0) |||
  (if writeReady = true ∧ reqMask &&& UEV_WRITE ≠ 0 then UEV_WRITE else 0) |||
  (if exceptReady = true ∧ reqMask &&& UEV_ERROR ≠ 0 then UEV_ERROR else 0)

/-- Repeated selector rounds OR-accumulating into the pending events word,
one Bool triple of fd set readiness per round. -/
def selectorAccum (reqMask : Nat) (pending : Nat)
    (rounds : List (Bool × Bool × Bool)) : Nat :=
  rounds.foldl
    (fun acc r => acc ||| selectorEvents r.1 r.2.1 r.2.2 reqMask) pending

/-- Fixture: a watcher with no owning context. -/
def noCtxWatcher : Watcher :=
  { type := UevType.timer, hasCtx := false, active := false, fd := -1, hasCb := false,
    events := 0, timer := ⟨0, 0, 0⟩, posted := false, ioEvents := 0,
    linked := false, inIolist := false }
/-- Fixture: an active, linked threadsafe timer. -/
def tsTimerActive : Watcher :=
  { type := UevType.timerTs, hasCtx := true, active := true, fd := -1, hasCb := true,
    events := UEV_READ, timer := ⟨50, 100, 500⟩, posted := false, ioEvents := 0,
    linked := true, inIolist := false }
/-- Fixture: an active periodic timer configured with timeout 0 and
period 100, as in the periodic coalescing scenario. -/
def periodicZero : Watcher :=
  { type := UevType.timer, hasCtx := true, active := true, fd := -1, hasCb := true,
    events := UEV_READ, timer := ⟨0, 100, 0⟩, posted := false, ioEvents := 0,
    linked := true, inIolist := false }
/-- Fixture: a dormant timer (timeout 0, deadline 0) sitting in the
registry at uev_run entry. -/
def dormantTimer : Watcher :=
  { type := UevType.timer, hasCtx := true, active := true, fd := -1, hasCb := true,
    events := UEV_READ, timer := ⟨0, 0, 0⟩, posted := false, ioEvents := 0,
    linked := true, inIolist := false }
/-- Fixture: an inactive, stopped non-threadsafe timer. -/
def stoppedTimer : Watcher :=
  { type := UevType.timer, hasCtx := true, active := false, fd := -1, hasCb := true,
    events := UEV_READ, timer := ⟨0, 0, 0⟩, posted := false, ioEvents := 0,
    linked := false, inIolist := false }
/-- Fixture: an armed event watcher with no pending post. -/
def armedEvent : Watcher :=
  { type := UevType.event, hasCtx := true, active := true, fd := -1, hasCb := true,
    events := UEV_READ, timer := ⟨0, 0, 0⟩, posted := false, ioEvents := 0,
    linked := true, inIolist := false }
/-- Fixture: an active periodic timer past its deadline. -/
def firingTimer : Watcher :=
  { type := UevType.timer, hasCtx := true, active := true, fd := -1, hasCb := true,
    events := UEV_READ, timer := ⟨7, 5, 50⟩, posted := false, ioEvents := 0,
    linked := true, inIolist := false }
/-- Fixture: an active I/O watcher requesting READ and ERROR only, with a
pending events word produced by one selector round in which all three fd
sets are ready. -/
def ioWatcher : Watcher :=
  { type := UevType.io, hasCtx := true, active := true, fd := 5, hasCb := true,
    events := UEV_READ ||| UEV_ERROR, timer := ⟨0, 0, 0⟩, posted := false,
    ioEvents := selectorAccum (UEV_READ ||| UEV_ERROR) 0 [(true, true, true)],
    linked := true, inIolist := true }

end Uev

namespace Uev

theorem or_and_self (x y : Nat) : (x ||| y) &&& y = y := by
  apply Nat.eq_of_testBit_eq
  intro i
  simp only [Nat.testBit_land, Nat.testBit_lor]
  cases y.testBit i <;> simp


/-- C7: uev_timer_set fails with EINVAL on a null watcher or a watcher
without an owning context and with ERANGE on a negative timeout or period,
and in every such failure case it returns the watcher and the context
unchanged. -/
theorem C7_timer_set_error_paths (now_us : Nat) (ctx : Ctx) (t p : Int) (w : Watcher) :
    uev_timer_setFull now_us none ctx t p = (Except.error Err.EINVAL, none, ctx) ∧
    (w.hasCtx = false →
      uev_timer_set now_us w ctx t p = (Except.error Err.EINVAL, w, ctx)) ∧
    (w.hasCtx = true → t < 0 ∨ p < 0 →
      uev_timer_set now_us w ctx t p = (Except.error Err.ERANGE, w, ctx)) := by
  refine ⟨rfl, ?_, ?_⟩
  · intro h
    simp [uev_timer_set, h]
  · intro h hneg
    simp [uev_timer_set, h, hneg]

theorem C7_timer_set_error_paths_witness :
    uev_timer_set 0 noCtxWatcher ⟨false, 0⟩ 5 7 =
      (Except.error Err.EINVAL, noCtxWatcher, ⟨false, 0⟩) :=
  (C7_timer_set_error_paths 0 ⟨false, 0⟩ 5 7 noCtxWatcher).2.1 rfl

/-- C10: uev_event_stop on a null pointer or an inactive event watcher
returns success and changes nothing. -/
theorem C10_event_stop_inactive (w : Watcher) (h : w.active = false) :
    uev_event_stop none = (Except.ok (), none) ∧
    uev_event_stop (some w) = (Except.ok (), some w) := by
  refine ⟨rfl, ?_⟩
  simp [uev_event_stop, _uev_watcher_active, h]

theorem C10_event_stop_inactive_witness :
    uev_event_stop (some noCtxWatcher) = (Except.ok (), some noCtxWatcher) :=
  (C10_event_stop_inactive noCtxWatcher rfl).2


/-- C4 counterexample: the public uev_timer_stop on an active threadsafe
timer does NOT retain the registry linkage; the unconditional _UEV_REMOVE
after the internal stop unlinks it. -/
theorem C4_counterexample :
    tsTimerActive.type = UevType.timerTs ∧
    tsTimerActive.active = true ∧ tsTimerActive.linked = true ∧
    (uev_timer_stop tsTimerActive).2.linked = false := by
  decide

/-- C4 amended: uev_timer_stop clears the active flag and unlinks the
watcher for BOTH timer variants (the threadsafe one via the explicit
removal that follows the internal stop); only the internal _uev_timer_stop
leaves a threadsafe timer linked; on an inactive watcher the public stop
changes nothing except still performing the list removal. -/
theorem C4_timer_stop_amended (w : Watcher) :
    (uev_timer_stop w).1 = Except.ok () ∧
    (uev_timer_stop w).2.active = false ∧
    (uev_timer_stop w).2.linked = false ∧
    (w.type = UevType.timerTs → (_uev_timer_stop w).2.linked = w.linked) ∧
    (w.active = false → (uev_timer_stop w).2 = { w with linked := false }) := by
  cases hw : w.active <;> cases ht : w.type <;>
    simp [uev_timer_stop, _uev_timer_stop, _uev_watcher_stop, _uev_watcher_active, hw, ht]

theorem C4_timer_stop_amended_witness :
    (uev_timer_stop tsTimerActive).2.active = false ∧
    (_uev_timer_stop tsTimerActive).2.linked = tsTimerActive.linked :=
  ⟨(C4_timer_stop_amended tsTimerActive).2.1,
   (C4_timer_stop_amended tsTimerActive).2.2.2.1 rfl⟩


/-- C2 (code bug): re-arming a periodic timer configured with timeout 0 and
period 100 through uev_timer_set on a running context leaves its deadline
at 0 (uev_timer_set treats a zero timeout as disarm regardless of the
period), so the dispatch sweep never delivers its callback in any
iteration, whatever the clock reads. -/
theorem C2_periodic_timeout_zero_never_fires (now_us bits now_ms nd : Nat) :
    (uev_timer_set now_us periodicZero ⟨true, 0⟩ 0 100).1 = Except.ok () ∧
    (uev_timer_set now_us periodicZero ⟨true, 0⟩ 0 100).2.1.timer.deadline = 0 ∧
    (sweepOne bits now_ms (uev_timer_set now_us periodicZero ⟨true, 0⟩ 0 100).2.1 nd).delivered
      = none := by
  refine ⟨rfl, rfl, ?_⟩
  show (sweepOne bits now_ms periodicZero nd).delivered = none
  simp [sweepOne, periodicZero]


/-- C3 (code bug): the entry re-arm pass of uev_run folds a timer deadline
into next_deadline WITHOUT the deadline greater than zero guard that the
per-iteration sweep applies, so a dormant timer with deadline 0 replaces
the FOREVER seed and becomes the wait deadline. -/
theorem C3_entry_pass_latches_zero_deadline (now_us : Nat) :
    (uev_run_entry now_us 0 [dormantTimer] ⟨false, 0⟩).2.2 = 0 := by
  rfl

/-- The success path of uev_timer_set: with an owning context, a non I/O
type and non-negative arguments it returns 0, stores the timeout and the
period, computes the deadline from the running flag, sets the TIMER bit,
and starts the watcher (activating and, except for threadsafe timers,
linking it when it was inactive). -/
theorem uev_timer_set_eq (now_us : Nat) (w : Watcher) (ctx : Ctx) (t p : Int)
    (hctx : w.hasCtx = true) (hio : w.type ≠ UevType.io)
    (ht : 0 ≤ t) (hp : 0 ≤ p) :
    uev_timer_set now_us w ctx t p =
      (Except.ok (),
       { w with
         timer := ⟨t, p, if ctx.running ∧ t ≠ (0 : Int)
                         then addU64 (now_us / 1000) t else 0⟩,
         active := true,
         linked := if w.active = false ∧ w.type ≠ UevType.timerTs
                   then true else w.linked },
       { ctx with egbits := ctx.egbits ||| UEV_EG_BIT_TIMER }) := by
  have hneg : ¬ (t < 0 ∨ p < 0) := by omega
  by_cases hr : ctx.running ∧ t ≠ (0 : Int) <;>
    cases hw : w.active <;> cases hty : w.type <;>
      first
        | exact absurd hty hio
        | simp [uev_timer_set, _uev_watcher_start, _uev_set_flags, hctx, hneg, hr, hw, hty]

/-- C9: every successful uev_timer_set also starts the watcher (setting
active and, for the non-threadsafe variant that was inactive, linking it
into the context list) and unconditionally sets the TIMER bit in the
context bit-group, so a stopped timer is re-activated by timer_set alone. -/
theorem C9_timer_set_starts_and_wakes (now_us : Nat) (w : Watcher) (ctx : Ctx)
    (a b : Int) (hctx : w.hasCtx = true)
    (htype : w.type = UevType.timer ∨ w.type = UevType.timerTs)
    (ha : 0 ≤ a) (hb : 0 ≤ b) :
    (uev_timer_set now_us w ctx a b).1 = Except.ok () ∧
    (uev_timer_set now_us w ctx a b).2.1.active = true ∧
    (w.active = false → w.type = UevType.timer →
      (uev_timer_set now_us w ctx a b).2.1.linked = true) ∧
    (uev_timer_set now_us w ctx a b).2.2.egbits &&& UEV_EG_BIT_TIMER ≠ 0 := by
  have hio : w.type ≠ UevType.io := by
    rcases htype with h | h <;> simp [h]
  rw [uev_timer_set_eq now_us w ctx a b hctx hio ha hb]
  refine ⟨rfl, rfl, ?_, ?_⟩
  · intro h1 h2
    simp [h1, h2]
  · rw [or_and_self]
    decide


theorem C9_timer_set_starts_and_wakes_witness :
    (uev_timer_set 1000 stoppedTimer ⟨true, 0⟩ 50 200).2.1.active = true ∧
    (uev_timer_set 1000 stoppedTimer ⟨true, 0⟩ 50 200).2.1.linked = true ∧
    (uev_timer_set 1000 stoppedTimer ⟨true, 0⟩ 50 200).2.2.egbits &&& UEV_EG_BIT_TIMER ≠ 0 :=
  ⟨(C9_timer_set_starts_and_wakes 1000 stoppedTimer ⟨true, 0⟩ 50 200 rfl
      (Or.inl rfl) (by decide) (by decide)).2.1,
   (C9_timer_set_starts_and_wakes 1000 stoppedTimer ⟨true, 0⟩ 50 200 rfl
      (Or.inl rfl) (by decide) (by decide)).2.2.1 rfl rfl,
   (C9_timer_set_starts_and_wakes 1000 stoppedTimer ⟨true, 0⟩ 50 200 rfl
      (Or.inl rfl) (by decide) (by decide)).2.2.2⟩

end Uev

namespace Uev

/-- The success path of uev_timer_init (non-threadsafe, with a callback):
watcher init with fd -1 and events READ followed by uev_timer_set. -/
theorem uev_timer_init_eq (now_us : Nat) (w : Watcher) (ctx : Ctx) (t p : Int)
    (ht : 0 ≤ t) (hp : 0 ≤ p) :
    uev_timer_init now_us w ctx true t p =
      (Except.ok (),
       { w with
         hasCtx := true, type := UevType.timer, active := true, fd := -1,
         hasCb := true, events := UEV_READ, ioEvents := 0,
         timer := ⟨t, p, if ctx.running ∧ t ≠ (0 : Int)
                         then addU64 (now_us / 1000) t else 0⟩,
         linked := true },
       { ctx with egbits := ctx.egbits ||| UEV_EG_BIT_TIMER }) := by
  have hneg : ¬ (t < 0 ∨ p < 0) := by omega
  unfold uev_timer_init uev_timer_init2
  rw [if_neg hneg]
  show (match uev_timer_set now_us
          (_uev_watcher_init w UevType.timer true (-1) UEV_READ) ctx t p with
    | (Except.ok _, w, c) => (Except.ok (), w, c)
    | (Except.error e, w, c) => (Except.error e, (_uev_watcher_stop w).2, c)) = _
  rw [uev_timer_set_eq now_us (_uev_watcher_init w UevType.timer true (-1) UEV_READ)
        ctx t p (by simp [_uev_watcher_init]) (by simp [_uev_watcher_init]) ht hp]
  simp [_uev_watcher_init]

/-- C8: the round trip timer_init, timer_set(a,b), timer_start, timer_stop
succeeds at every step and leaves the watcher inactive with the configured
timeout a and period b preserved. -/
theorem C8_roundtrip (now1 now2 now3 : Nat) (w : Watcher) (c : Ctx) (t0 p0 a b : Int)
    (h0 : 0 ≤ t0) (h1 : 0 ≤ p0) (ha : 0 ≤ a) (hb : 0 ≤ b) :
    ∀ (s1 s2 s3 : Except Err Unit × Watcher × Ctx) (s4 : Except Err Unit × Watcher),
      s1 = uev_timer_init now1 w c true t0 p0 →
      s2 = uev_timer_set now2 s1.2.1 s1.2.2 a b →
      s3 = uev_timer_start now3 s2.2.1 s2.2.2 →
      s4 = uev_timer_stop s3.2.1 →
      s1.1 = Except.ok () ∧ s2.1 = Except.ok () ∧ s3.1 = Except.ok () ∧
      s4.1 = Except.ok () ∧
      s4.2.active = false ∧ s4.2.timer.timeout = a ∧ s4.2.timer.period = b := by
  intro s1 s2 s3 s4 e1 e2 e3 e4
  rw [uev_timer_init_eq now1 w c t0 p0 h0 h1] at e1
  subst e1
  dsimp only at e2
  rw [uev_timer_set_eq now2 _ _ a b rfl (by simp) ha hb] at e2
  subst e2
  dsimp only at e3
  unfold uev_timer_start at e3
  rw [if_neg (by simp)] at e3
  dsimp only at e3
  rw [uev_timer_set_eq now3 _ _ a b rfl (by simp) ha hb] at e3
  subst e3
  dsimp only at e4
  simp only [uev_timer_stop, _uev_timer_stop, _uev_watcher_stop,
    _uev_watcher_active] at e4
  subst e4
  refine ⟨rfl, rfl, rfl, ?_, ?_, ?_, ?_⟩ <;> simp

theorem C8_roundtrip_witness :
    (uev_timer_stop (uev_timer_start 3
        (uev_timer_set 2 (uev_timer_init 1 noCtxWatcher ⟨false, 0⟩ true 10 0).2.1
            (uev_timer_init 1 noCtxWatcher ⟨false, 0⟩ true 10 0).2.2 25 7).2.1
        (uev_timer_set 2 (uev_timer_init 1 noCtxWatcher ⟨false, 0⟩ true 10 0).2.1
            (uev_timer_init 1 noCtxWatcher ⟨false, 0⟩ true 10 0).2.2 25 7).2.2).2.1).2.active
      = false ∧
    (uev_timer_stop (uev_timer_start 3
        (uev_timer_set 2 (uev_timer_init 1 noCtxWatcher ⟨false, 0⟩ true 10 0).2.1
            (uev_timer_init 1 noCtxWatcher ⟨false, 0⟩ true 10 0).2.2 25 7).2.1
        (uev_timer_set 2 (uev_timer_init 1 noCtxWatcher ⟨false, 0⟩ true 10 0).2.1
            (uev_timer_init 1 noCtxWatcher ⟨false, 0⟩ true 10 0).2.2 25 7).2.2).2.1).2.timer.timeout
      = 25 ∧
    (uev_timer_stop (uev_timer_start 3
        (uev_timer_set 2 (uev_timer_init 1 noCtxWatcher ⟨false, 0⟩ true 10 0).2.1
            (uev_timer_init 1 noCtxWatcher ⟨false, 0⟩ true 10 0).2.2 25 7).2.1
        (uev_timer_set 2 (uev_timer_init 1 noCtxWatcher ⟨false, 0⟩ true 10 0).2.1
            (uev_timer_init 1 noCtxWatcher ⟨false, 0⟩ true 10 0).2.2 25 7).2.2).2.1).2.timer.period
      = 7 := by
  have h := C8_roundtrip 1 2 3 noCtxWatcher ⟨false, 0⟩ 10 0 25 7
    (by decide) (by decide) (by decide) (by decide) _ _ _ _ rfl rfl rfl rfl
  exact ⟨h.2.2.2.2.1, h.2.2.2.2.2.1, h.2.2.2.2.2.2⟩

/-- Any positive number of uev_event_post calls leaves the watcher with the
posted flag set and nothing else changed on the watcher. -/
theorem postN_fst (n : Nat) (w : Watcher) (c : Ctx) (hn : 1 ≤ n) :
    (postN n (w, c)).1 = { w with posted := true } := by
  induction n generalizing w c with
  | zero => omega
  | succ m ih =>
    by_cases hm : 1 ≤ m
    · have h := ih { w with posted := true } (_uev_set_flags c UEV_EG_BIT_EVENT) hm
      simpa [postN, uev_event_post] using h
    · have hm0 : m = 0 := by omega
      subst hm0
      rfl

/-- C5: any number of posts before one dispatch iteration coalesce into a
single set posted flag; an iteration whose wake includes the EVENT bit
delivers the callback exactly once with events READ and clears the flag,
so an immediate second handling delivers nothing; without a pending post
nothing is delivered and the watcher is unchanged. -/
theorem C5_event_coalescing (n bits now_ms nd : Nat) (w : Watcher) (c : Ctx)
    (hn : 1 ≤ n) (hact : w.active = true) (htype : w.type = UevType.event)
    (hcb : w.hasCb = true) (hbit : bits &&& UEV_EG_BIT_EVENT ≠ 0) :
    (postN n (w, c)).1.posted = true ∧
    (sweepOne bits now_ms (postN n (w, c)).1 nd).delivered = some UEV_READ ∧
    (sweepOne bits now_ms (postN n (w, c)).1 nd).w.posted = false ∧
    (sweepOne bits now_ms (sweepOne bits now_ms (postN n (w, c)).1 nd).w nd).delivered
      = none ∧
    (w.posted = false →
      (sweepOne bits now_ms w nd).delivered = none ∧
      (sweepOne bits now_ms w nd).w = w) := by
  have hM : UEV_READ &&& UEV_EVENT_MASK = UEV_READ := by decide
  rw [postN_fst n w c hn]
  refine ⟨rfl, ?_, ?_, ?_, ?_⟩
  · simp [sweepOne, hact, htype, hcb, hbit, hM]
  · simp [sweepOne, hact, htype, hcb, hbit]
  · simp [sweepOne, hact, htype, hcb, hbit]
  · intro hp
    simp [sweepOne, hact, htype, hcb, hbit, hp]


theorem C5_event_coalescing_witness :
    (sweepOne UEV_EG_BIT_EVENT 0 (postN 1000 (armedEvent, ⟨true, 0⟩)).1 0).delivered
      = some UEV_READ ∧
    (sweepOne UEV_EG_BIT_EVENT 0 (postN 1000 (armedEvent, ⟨true, 0⟩)).1 0).w.posted
      = false :=
  ⟨(C5_event_coalescing 1000 UEV_EG_BIT_EVENT 0 0 armedEvent ⟨true, 0⟩
      (by decide) rfl rfl rfl (by decide)).2.1,
   (C5_event_coalescing 1000 UEV_EG_BIT_EVENT 0 0 armedEvent ⟨true, 0⟩
      (by decide) rfl rfl rfl (by decide)).2.2.1⟩

end Uev

namespace Uev

/-- addU64 is plain addition below the 2^64 wrap. -/
theorem addU64_eq (a : Nat) (b : Int) (hb : 0 ≤ b) (h : a + b.toNat < U64_MOD) :
    addU64 a b = a + b.toNat := by
  have hm : (U64_MOD : Int) = 18446744073709551616 := by norm_num [U64_MOD]
  have hm2 : U64_MOD = 18446744073709551616 := by norm_num [U64_MOD]
  unfold addU64
  rw [Int.emod_eq_of_lt (by omega) (by omega)]
  omega

/-- C1: an active timer watcher of either variant, handled in one dispatch
iteration at clock reading now_ms, delivers its callback with events READ
exactly when now_ms is positive, the deadline is positive and now_ms
exceeds the deadline; on delivery a zero period zeroes the timeout, a zero
(possibly just zeroed) timeout stops the watcher through the internal
timer stop leaving the deadline untouched, and a non-zero timeout advances
the deadline to now_ms plus the period; when the fire condition fails the
watcher is completely unchanged and nothing is delivered. -/
theorem C1_timer_dispatch (bits now_ms nd : Nat) (w : Watcher)
    (hact : w.active = true)
    (htype : w.type = UevType.timer ∨ w.type = UevType.timerTs)
    (hcb : w.hasCb = true) (hper : 0 ≤ w.timer.period)
    (hov : now_ms + w.timer.period.toNat < U64_MOD) :
    ((sweepOne bits now_ms w nd).delivered = some UEV_READ ↔
      0 < now_ms ∧ 0 < w.timer.deadline ∧ w.timer.deadline < now_ms) ∧
    (0 < now_ms ∧ 0 < w.timer.deadline ∧ w.timer.deadline < now_ms →
      (w.timer.period = 0 → (sweepOne bits now_ms w nd).w.timer.timeout = 0) ∧
      ((if w.timer.period = 0 then (0 : Int) else w.timer.timeout) = 0 →
        (sweepOne bits now_ms w nd).w.active = false ∧
        (sweepOne bits now_ms w nd).w.timer.deadline = w.timer.deadline) ∧
      ((if w.timer.period = 0 then (0 : Int) else w.timer.timeout) ≠ 0 →
        (sweepOne bits now_ms w nd).w.active = true ∧
        (sweepOne bits now_ms w nd).w.timer.deadline
          = now_ms + w.timer.period.toNat)) ∧
    (¬ (0 < now_ms ∧ 0 < w.timer.deadline ∧ w.timer.deadline < now_ms) →
      (sweepOne bits now_ms w nd).w = w ∧
      (sweepOne bits now_ms w nd).delivered = none) := by
  have hM : UEV_READ &&& UEV_EVENT_MASK = UEV_READ := by decide
  have hadd := addU64_eq now_ms w.timer.period hper hov
  rcases htype with hty | hty
  all_goals {
    by_cases hf : 0 < now_ms ∧ 0 < w.timer.deadline ∧ w.timer.deadline < now_ms
    · have hf' : 0 < now_ms ∧ w.timer.deadline ≠ 0 ∧ w.timer.deadline < now_ms := by
        omega
      by_cases hp0 : w.timer.period = 0
      · refine ⟨?_, ?_, ?_⟩
        · simp [sweepOne, hact, hty, hf', hM, hf, hcb, hp0, _uev_timer_stop,
            _uev_watcher_stop, _uev_watcher_active]
        · intro _
          refine ⟨?_, ?_, ?_⟩
          · intro _
            simp [sweepOne, hact, hty, hf', hp0, _uev_timer_stop,
              _uev_watcher_stop, _uev_watcher_active]
          · intro _
            constructor <;>
              simp [sweepOne, hact, hty, hf', hp0, _uev_timer_stop,
                _uev_watcher_stop, _uev_watcher_active]
          · intro hne
            simp [hp0] at hne
        · intro hnf
          exact absurd hf hnf
      · by_cases ht0 : w.timer.timeout = 0
        · refine ⟨?_, ?_, ?_⟩
          · simp [sweepOne, hact, hty, hf', hM, hf, hcb, hp0, ht0,
              _uev_timer_stop, _uev_watcher_stop, _uev_watcher_active]
          · intro _
            refine ⟨?_, ?_, ?_⟩
            · intro hpz
              exact absurd hpz hp0
            · intro _
              constructor <;>
                simp [sweepOne, hact, hty, hf', hp0, ht0, _uev_timer_stop,
                  _uev_watcher_stop, _uev_watcher_active]
            · intro hne
              simp [hp0, ht0] at hne
          · intro hnf
            exact absurd hf hnf
        · refine ⟨?_, ?_, ?_⟩
          · simp [sweepOne, hact, hty, hf', hM, hf, hcb, hp0, ht0]
          · intro _
            refine ⟨?_, ?_, ?_⟩
            · intro hpz
              exact absurd hpz hp0
            · intro hz
              rw [if_neg hp0] at hz
              exact absurd hz ht0
            · intro _
              constructor <;>
                simp [sweepOne, hact, hty, hf', hp0, ht0, hadd]
          · intro hnf
            exact absurd hf hnf
    · have hf' : ¬ (0 < now_ms ∧ w.timer.deadline ≠ 0 ∧ w.timer.deadline < now_ms) := by
        omega
      refine ⟨?_, ?_, ?_⟩
      · simp [sweepOne, hact, hty, hf', hf]
      · intro hc
        exact absurd hc hf
      · intro _
        constructor <;> simp [sweepOne, hact, hty, hf']
  }


theorem C1_timer_dispatch_witness :
    (sweepOne 0 100 firingTimer 999).delivered = some UEV_READ ∧
    (sweepOne 0 100 firingTimer 999).w.timer.deadline = 100 + (5 : Int).toNat := by
  have h := C1_timer_dispatch 0 100 999 firingTimer rfl (Or.inl rfl) rfl
    (by decide) (by decide)
  exact ⟨h.1.mpr (by decide), ((h.2.1 (by decide)).2.2 (by decide)).2⟩

end Uev

namespace Uev

/-- A number has a zero WRITE bit iff bit 2 is clear. -/
theorem and_write_eq_zero (x : Nat) : x &&& UEV_WRITE = 0 ↔ x.testBit 2 = false := by
  have hz : UEV_WRITE = 2 ^ 2 := by norm_num [UEV_WRITE]
  constructor
  · intro h
    have h2 : (x &&& UEV_WRITE).testBit 2 = (0 : Nat).testBit 2 := by rw [h]
    rw [Nat.testBit_land, hz, Nat.testBit_two_pow, Nat.zero_testBit] at h2
    simpa using h2
  · intro h
    apply Nat.eq_of_testBit_eq
    intro i
    rw [Nat.testBit_land, hz, Nat.testBit_two_pow, Nat.zero_testBit]
    by_cases hi : 2 = i
    · subst hi
      simp [h]
    · simp [hi]

/-- Masking with a single bit yields that bit or zero. -/
theorem and_two_pow_cases (x k : Nat) : x &&& 2 ^ k = 2 ^ k ∨ x &&& 2 ^ k = 0 := by
  by_cases h : x.testBit k
  · left
    apply Nat.eq_of_testBit_eq
    intro i
    rw [Nat.testBit_land, Nat.testBit_two_pow]
    by_cases hi : k = i
    · subst hi
      simp [h]
    · simp [hi, Nat.testBit_two_pow]
  · right
    apply Nat.eq_of_testBit_eq
    intro i
    rw [Nat.testBit_land, Nat.testBit_two_pow, Nat.zero_testBit]
    by_cases hi : k = i
    · subst hi
      simp [h]
    · simp [hi]

/-- The guarded single-bit contribution of the selector equals the
readiness flag applied to the masked bit. -/
theorem ite_readiness_eq (cond : Bool) (x k : Nat) :
    (if cond = true ∧ x &&& 2 ^ k ≠ 0 then 2 ^ k else 0)
      = (if cond = true then x &&& 2 ^ k else 0) := by
  have hk : (2 : Nat) ^ k ≠ 0 := by positivity
  rcases and_two_pow_cases x k with h | h <;>
    by_cases hc : cond = true <;> simp [h, hc, hk]

/-- The selector contribution is exactly the requested-mask bits whose fd
set is ready. -/
theorem selectorEvents_eq (r wr ex : Bool) (m : Nat) :
    selectorEvents r wr ex m =
      (if r = true then m &&& UEV_READ else 0) |||
      (if wr = true then m &&& UEV_WRITE else 0) |||
      (if ex = true then m &&& UEV_ERROR else 0) := by
  have h1 : UEV_READ = 2 ^ 1 := by norm_num [UEV_READ]
  have h2 : UEV_WRITE = 2 ^ 2 := by norm_num [UEV_WRITE]
  have h0 : UEV_ERROR = 2 ^ 0 := by norm_num [UEV_ERROR]
  unfold selectorEvents
  rw [h1, h2, h0, ite_readiness_eq, ite_readiness_eq, ite_readiness_eq]

/-- When the requested mask excludes WRITE, no selector round contributes
the WRITE bit. -/
theorem selectorEvents_no_write (r wr ex : Bool) (m : Nat)
    (hm : m &&& UEV_WRITE = 0) :
    selectorEvents r wr ex m &&& UEV_WRITE = 0 := by
  have h1 : UEV_READ = 2 ^ 1 := by norm_num [UEV_READ]
  have h2w : UEV_WRITE = 2 ^ 2 := by norm_num [UEV_WRITE]
  have h0 : UEV_ERROR = 2 ^ 0 := by norm_num [UEV_ERROR]
  have hm2 : m.testBit 2 = false := (and_write_eq_zero m).1 hm
  have b1 : ∀ c : Bool, (if c = true then m &&& 2 ^ 1 else 0).testBit 2 = false := by
    intro c
    by_cases hc : c = true
    · rw [if_pos hc, Nat.testBit_land, Nat.testBit_two_pow]
      simp
    · rw [if_neg hc, Nat.zero_testBit]
  have b2 : ∀ c : Bool, (if c = true then m &&& 2 ^ 2 else 0).testBit 2 = false := by
    intro c
    by_cases hc : c = true
    · rw [if_pos hc, Nat.testBit_land]
      simp [hm2]
    · rw [if_neg hc, Nat.zero_testBit]
  have b0 : ∀ c : Bool, (if c = true then m &&& 2 ^ 0 else 0).testBit 2 = false := by
    intro c
    by_cases hc : c = true
    · rw [if_pos hc, Nat.testBit_land, Nat.testBit_two_pow]
      simp
    · rw [if_neg hc, Nat.zero_testBit]
  rw [selectorEvents_eq, and_write_eq_zero, h1, h2w, h0,
      Nat.testBit_lor, Nat.testBit_lor, b1 r, b2 wr, b0 ex]
  rfl

end Uev

namespace Uev

/-- OR-accumulation from a WRITE-free pending word through WRITE-free
selector rounds stays WRITE-free. -/
theorem selectorAccum_no_write (m : Nat) (hm : m &&& UEV_WRITE = 0)
    (rounds : List (Bool × Bool × Bool)) (pending : Nat)
    (hp : pending &&& UEV_WRITE = 0) :
    selectorAccum m pending rounds &&& UEV_WRITE = 0 := by
  induction rounds generalizing pending with
  | nil => exact hp
  | cons rd rest ih =>
    show selectorAccum m (pending ||| selectorEvents rd.1 rd.2.1 rd.2.2 m) rest
        &&& UEV_WRITE = 0
    apply ih
    have hs := selectorEvents_no_write rd.1 rd.2.1 rd.2.2 m hm
    rw [and_write_eq_zero] at hp hs ⊢
    rw [Nat.testBit_lor, hp, hs]
    rfl

/-- C6: the selector ORs into the pending events word only bits that are
both ready in the returned fd sets and contained in the requested mask;
the dispatcher delivers only the pending word masked by UEV_EVENT_MASK;
consequently a watcher whose requested mask excludes WRITE never receives
WRITE bits in its callback. -/
theorem C6_io_no_write_delivery (bits now_ms nd : Nat) (w : Watcher)
    (rounds : List (Bool × Bool × Bool))
    (hio : w.type = UevType.io)
    (hmask : w.events &&& UEV_WRITE = 0)
    (hpend : w.ioEvents = selectorAccum w.events 0 rounds) :
    (∀ r wr ex : Bool, selectorEvents r wr ex w.events =
      (if r = true then w.events &&& UEV_READ else 0) |||
      (if wr = true then w.events &&& UEV_WRITE else 0) |||
      (if ex = true then w.events &&& UEV_ERROR else 0)) ∧
    w.ioEvents &&& UEV_WRITE = 0 ∧
    (∀ e, (sweepOne bits now_ms w nd).delivered = some e →
      e = w.ioEvents &&& UEV_EVENT_MASK ∧ e &&& UEV_WRITE = 0) := by
  have hnw : w.ioEvents &&& UEV_WRITE = 0 := by
    rw [hpend]
    exact selectorAccum_no_write w.events hmask rounds 0 (by decide)
  refine ⟨fun r wr ex => selectorEvents_eq r wr ex w.events, hnw, ?_⟩
  intro e he
  have h7 : Nat.testBit UEV_EVENT_MASK 2 = true := by decide
  cases hact : w.active with
  | false =>
    rw [sweepOne] at he
    simp [hact] at he
  | true =>
    have hdel : e = w.ioEvents &&& UEV_EVENT_MASK := by
      rw [sweepOne] at he
      simp only [hact, hio] at he
      by_cases hb : bits &&& UEV_EG_BIT_IO = 0
      · simp [hb] at he
      · by_cases hz : w.ioEvents ≠ 0
        · by_cases hc : w.hasCb = true
          · simp [hb, hz, hc] at he
            omega
          · simp [hb, hz, hc] at he
        · simp [hb, hz] at he
    refine ⟨hdel, ?_⟩
    rw [hdel, and_write_eq_zero, Nat.testBit_land, h7]
    rw [and_write_eq_zero] at hnw
    rw [hnw]
    rfl

end Uev

namespace Uev


theorem C6_io_no_write_delivery_witness :
    ioWatcher.ioEvents &&& UEV_WRITE = 0 ∧
    (3 : Nat) = ioWatcher.ioEvents &&& UEV_EVENT_MASK ∧
    (3 : Nat) &&& UEV_WRITE = 0 :=
  ⟨(C6_io_no_write_delivery UEV_EG_BIT_IO 0 0 ioWatcher [(true, true, true)]
      rfl (by decide) rfl).2.1,
   (C6_io_no_write_delivery UEV_EG_BIT_IO 0 0 ioWatcher [(true, true, true)]
      rfl (by decide) rfl).2.2 3 (by decide)⟩

end Uev
